import Mathlib

/-!
Shallow embedding of the two notebooks of this repository: the RAG
title-suggestion notebook (dataset load, batched embedding indexing into a
vector store, similarity retrieval, prompt composition, completion call)
and the food-chatbot prompt-chaining notebook (reasoning, extraction,
refinement and verification stages over a hosted completion client).

External services are modelled as parameters: the hosted chat-completion
endpoint is a function from a request to a provider outcome, the embedding
model is a function from text to an abstract vector type, and the random
number generator behind the id derivation is a stream of offsets.
-/

/-- A single chat message, as in the message dictionaries sent to the
chat-completion endpoint. -/
structure ChatMessage where
  role : String
  content : String
deriving DecidableEq, Repr

/-- A chat-completion request: a model identifier and a message list. -/
structure ChatRequest where
  model : String
  messages : List ChatMessage
deriving DecidableEq, Repr

/-- One choice of a provider response, carrying a message. -/
structure Choice where
  message : ChatMessage
deriving DecidableEq, Repr

/-- A provider response: a list of choices. -/
structure ChatResponse where
  choices : List Choice
deriving DecidableEq, Repr

/-- Exceptions that can escape the completion-client code: a provider
error carried unchanged, or the index error raised when the response holds
no choice at all. -/
inductive PyExn (ε : Type) where
  | api (e : ε)
  | indexError
deriving DecidableEq, Repr

/-- A provider is a function from a request to either a provider-side
error or a response; it models the hosted chat-completion endpoint. -/
def Provider (ε : Type) : Type := ChatRequest → Except ε ChatResponse

namespace Rag

/-- One raw row of the tabular dataset. An empty cell of the file is read
as a missing value, modelled by `none`. -/
structure CsvRow where
  Title : Option String
  Description : Option String
  PaperURL : Option String
  TweetURL : Option String
  Abstract : Option String
deriving DecidableEq, Repr

/-- Retention predicate of the loader: the row has both a title and a
description present (non-empty cells). -/
def hasTitleAndDescription (r : CsvRow) : Bool :=
  r.Title.isSome && r.Description.isSome

/-- The loader's cleaning step: drop the rows whose `Title` or
`Description` cell is missing, keeping the rest in order. -/
def dropna (rows : List CsvRow) : List CsvRow :=
  rows.filter hasTitleAndDescription

/-- A paper record after the cleaning step: title and description are
present as strings, the remaining cells may still be missing. -/
structure Paper where
  Title : String
  Description : String
  PaperURL : Option String
  TweetURL : Option String
  Abstract : Option String
deriving DecidableEq, Repr

/-- Metadata stored with an indexed document: the paper url and the
abstract. -/
structure Metadata where
  url : Option String
  abstract : Option String
deriving DecidableEq, Repr

/-- The fixed batch size of the indexing loop. -/
def batch_size : Nat := 50

/-- Fuel-driven worker for `chunks`; the fuel bounds the number of loop
iterations, as the index loop runs at most `l.length` times. -/
def chunksGo (bs : Nat) : Nat → List α → List (List α)
  | _, [] => []
  | 0, _ :: _ => []
  | fuel + 1, x :: xs => (x :: xs).take bs :: chunksGo bs fuel ((x :: xs).drop bs)

/-- The batching of the indexing loop: successive slices
`l[i : i + bs]` for `i = 0, bs, 2*bs, ...`. -/
def chunks (bs : Nat) (l : List α) : List (List α) :=
  chunksGo bs l.length l

/-- The per-record document text of a batch: the title, replaced by
"No Title" when the title is the empty string. -/
def batch_titles (batch : List Paper) : List String :=
  batch.map (fun p => if p.Title ≠ "" then p.Title else "No Title")

/-- Sum, over the characters of a title, of the character code plus the
next offset drawn from the random stream `r`, starting at draw position
`pos`. -/
def randTitleSum (r : Nat → Nat) (pos : Nat) : List Char → Nat
  | [] => 0
  | c :: cs => (c.toNat + r pos) + randTitleSum r (pos + 1) cs

/-- The derived id of one record: the decimal string of the randomized
character-code sum of its title. -/
def deriveId (r : Nat → Nat) (pos : Nat) (title : String) : String :=
  toString (randTitleSum r pos title.data)

/-- The id list of a batch: each record's derived id, threading the
position in the random stream through the batch; returns the ids and the
next unused stream position. -/
def batch_ids (r : Nat → Nat) (pos : Nat) : List Paper → List String × Nat
  | [] => ([], pos)
  | p :: ps =>
    let rest := batch_ids r (pos + p.Title.length) ps
    (deriveId r pos p.Title :: rest.1, rest.2)

/-- The metadata list of a batch: url and abstract of each record. -/
def batch_metadata (batch : List Paper) : List Metadata :=
  batch.map (fun p => Metadata.mk p.PaperURL p.Abstract)

/-- Validity of the random stream: every draw of `random.randint(1, 10000)`
lies between 1 and 10000 inclusive. -/
def validOffsets (r : Nat → Nat) : Prop :=
  ∀ i, 1 ≤ r i ∧ r i ≤ 10000

/-- A document as persisted in the vector store: document text (the
title), metadata, and the embedding vector, of abstract type `E`. -/
structure StoredDoc (E : Type) where
  document : String
  metadata : Metadata
  embedding : E
deriving DecidableEq, Repr

/-- The state of the vector-store collection: entries keyed by id. -/
def Store (E : Type) : Type := List (String × StoredDoc E)

/-- Modelled from the spec: the external vector store's single-id upsert,
the insert-or-update operation keyed by id — re-indexing the same id
overwrites prior content, a fresh id is appended. -/
def upsertOne {E : Type} : Store E → String → StoredDoc E → Store E
  | [], id, d => [(id, d)]
  | (k, v) :: rest, id, d =>
    if k == id then (id, d) :: rest else (k, v) :: upsertOne rest id d

/-- Modelled from the spec: the batched `collection.upsert` call, which
upserts the parallel lists of ids, metadatas, documents and embeddings in
order. -/
def upsert {E : Type} (s : Store E) :
    List String → List Metadata → List String → List E → Store E
  | id :: ids, m :: ms, doc :: docs, e :: es =>
    upsert (upsertOne s id (StoredDoc.mk doc m e)) ids ms docs es
  | _, _, _, _ => s

/-- Content of the store at an id, when present. -/
def lookupDoc {E : Type} (s : Store E) (id : String) : Option (StoredDoc E) :=
  (s.find? (fun p => p.1 == id)).map Prod.snd

/-- Number of entries of the store carrying a given id. -/
def countId {E : Type} (s : Store E) (id : String) : Nat :=
  s.countP (fun p => p.1 == id)

/-- Invariant of the store: the ids of its entries are pairwise
distinct. -/
def keysNodup {E : Type} (s : Store E) : Prop :=
  (s.map Prod.fst).Nodup

/-- One iteration of the indexing loop on one batch: compute titles, ids
and metadata, embed the titles with the external embedding model `emb`,
and upsert the batch into the store; returns the new store and the next
random-stream position. -/
def indexBatch {E : Type} (emb : String → E) (r : Nat → Nat)
    (s : Store E) (pos : Nat) (batch : List Paper) : Store E × Nat :=
  let titles := batch_titles batch
  let ids := batch_ids r pos batch
  let metas := batch_metadata batch
  let embeddings := titles.map emb
  (upsert s ids.1 metas titles embeddings, ids.2)

/-- The whole indexing run: fold the per-batch step over the batches of
size `batch_size`, starting from store `s` and stream position 0. -/
def runIndexing {E : Type} (emb : String → E) (r : Nat → Nat)
    (papers : List Paper) (s : Store E) : Store E :=
  ((chunks batch_size papers).foldl
    (fun acc b => indexBatch emb r acc.1 acc.2 b) (s, 0)).1

/-- Modelled from the spec: the external vector store's `query` call.
The similarity metric is owned by the store and is modelled as the
parameter `sim`; the call ranks the stored entries by non-increasing
similarity to the query text and returns the first `n_results` of them,
the empty sequence when the store is empty. -/
def query {E : Type} (sim : String → String × StoredDoc E → Int)
    (s : Store E) (query_text : String) (n_results : Nat) :
    List (String × StoredDoc E) :=
  (s.insertionSort (fun a b => sim query_text b ≤ sim query_text a)).take n_results

/-- The fixed prompt template of the title-suggestion step, substituting
the user query and the pre-joined retrieved titles. -/
def prompt_template (user_query short_titles : String) : String :=
  "\nYour main task is to generate 5 SUGGESTED_TITLES based for the PAPER_TITLE\n\nYou should mimic a similar style and length as SHORT_TITLES but PLEASE DO NOT include titles from SHORT_TITLES in the SUGGESTED_TITLES, only generate appropriate and factual versions of the PAPER_TILE.\n\nPAPER_TITLE: " ++ user_query ++ "\n\nSHORT_TITLES: " ++ short_titles ++ "\n\nSUGGESTED_TITLES:\n"

/-- The prompt composer of the title-suggestion pipeline: join the
retrieved document titles with newlines and substitute into the fixed
template. -/
def composeTitlePrompt (user_query : String) (documents : List String) : String :=
  prompt_template user_query (String.intercalate "\n" documents)

/-- The completion client of the RAG notebook: send a single-turn user
message holding the prompt to the provider under the fixed model
identifier, and return the content of the first choice; a provider error
is re-raised unchanged, an empty choice list raises an index error. -/
def generate_response {ε : Type} (client : Provider ε) (prompt : String) :
    Except (PyExn ε) String :=
  match client (ChatRequest.mk "gpt-4o-mini" [ChatMessage.mk "user" prompt]) with
  | .error e => .error (.api e)
  | .ok response =>
    match response.choices with
    | [] => .error .indexError
    | choice :: _ => .ok choice.message.content

end Rag

namespace FoodChat

/-- The completion client of the food-chatbot notebook: identical to the
RAG one except for its fixed model identifier. -/
def generate_response {ε : Type} (client : Provider ε) (prompt : String) :
    Except (PyExn ε) String :=
  match client (ChatRequest.mk "gpt-4o" [ChatMessage.mk "user" prompt]) with
  | .error e => .error (.api e)
  | .ok response =>
    match response.choices with
    | [] => .error .indexError
    | choice :: _ => .ok choice.message.content

/-- The reasoning-stage prompt: the fixed template with the user request
and the menu text substituted. -/
def reasoning_prompt (request menu_items : String) : String :=
  "\n    Your task is to answer questions factually about a food menu, provided below and delimited by +++++. The user request is provided here: " ++ request ++ "\n\n    Step 1: The first step is to check if the user is asking a question related to any type of food (even if that food item is not on the menu). If the question is about any type of food, we move on to Step 2 and ignore the rest of Step 1. If the question is not about food, then we send a response: \"Sorry! I cannot help with that. Please let me know if you have a question about our food menu.\"\n\n    Step 2: In this step, we check that the user question is relevant to any of the items on the food menu. You should check that the food item exists in our menu first. If it doesn\x27t exist then send a kind response to the user that the item doesn\x27t exist in our menu and then include a list of available but similar food items without any other details (e.g., price). The food items available are provided below and delimited by +++++:\n\n    +++++\n    " ++ menu_items ++ "\n    +++++\n\n    Step 3: If the item exists in our food menu and the user is requesting specific information, provide that relevant information to the user using the food menu. Make sure to use a friendly tone and keep the response concise.\n\n    Perform the following reasoning steps to send a response to the user:\n    Step 1: <Step 1 reasoning>\n    Step 2: <Step 2 reasoning>\n    Response to the user (only output the final response): <response to user>\n    "

/-- The extraction-stage prompt: the fixed template with the reasoning
text substituted. -/
def extraction_prompt (reasoning : String) : String :=
  "\n    Extract the final response from delimited by ###.\n\n    ###\n    " ++ reasoning ++ ". \n    ###\n\n    Only output what comes after \"Response to the user:\".\n    "

/-- The refinement-stage prompt: the fixed template with the extracted
response substituted. -/
def refinement_prompt (final_response : String) : String :=
  "\n    Perform the following refinement steps on the final output delimited by ###.\n\n    1). Shorten the text to one sentence\n    2). Use a friendly tone\n\n    ###\n    " ++ final_response ++ "\n    ###\n    "

/-- The verification-stage prompt: the fixed template with the user
question, the refined response and the menu text substituted. -/
def verification_prompt (user_question refined_response menu_items : String) : String :=
  "\n    Your task is to check that the refined response (delimited by ###) is providing a factual response based on the user question (delimited by @@@) and the menu below (delimited by +++++). If yes, just output the refined response in its original form (without the delimiters). If no, then make the correction to the response and return the new response only.\n\n    User question: @@@ " ++ user_question ++ " @@@\n\n    Refined response: ### " ++ refined_response ++ " ###\n\n    +++++\n    " ++ menu_items ++ "\n    +++++\n    "

/-- The reasoning stage: compose the reasoning prompt from the user query
and the menu text and send it. -/
def reasoning_step {ε : Type} (client : Provider ε) (user_query menu_items : String) :
    Except (PyExn ε) String :=
  generate_response client (reasoning_prompt user_query menu_items)

/-- The extraction stage: compose the extraction prompt from the reasoning
text and send it. -/
def extraction_step {ε : Type} (client : Provider ε) (reasoning : String) :
    Except (PyExn ε) String :=
  generate_response client (extraction_prompt reasoning)

/-- The refinement stage: compose the refinement prompt from the extracted
response and send it. -/
def refinement_step {ε : Type} (client : Provider ε) (final_response : String) :
    Except (PyExn ε) String :=
  generate_response client (refinement_prompt final_response)

/-- The verification stage: compose the verification prompt from the user
question, the refined response and the menu text and send it. -/
def verification_step {ε : Type} (client : Provider ε)
    (user_question refined_response menu_items : String) :
    Except (PyExn ε) String :=
  generate_response client (verification_prompt user_question refined_response menu_items)

/-- The notebook's displayed return value: an IPython Markdown display
object wrapping its text. -/
structure Markdown where
  data : String
deriving DecidableEq, Repr

/-- The full chat chain: run the four stages in order, each consuming the
previous stage's output, and return the verification output wrapped as a
Markdown display object; any stage failure propagates. -/
def generate_food_chatbot {ε : Type} (client : Provider ε)
    (user_query menu_items : String) : Except (PyExn ε) Markdown := do
  let reasoning ← reasoning_step client user_query menu_items
  let extraction ← extraction_step client reasoning
  let refinement ← refinement_step client extraction
  let verification ← verification_step client user_query refinement menu_items
  pure (Markdown.mk verification)

/-- The four stages of the chat chain, in order. -/
inductive Stage where
  | reasoning
  | extraction
  | refinement
  | verification
deriving DecidableEq, Repr

/-- Modelled from the spec: one transition of the strict linear state
machine — compose the stage-specific prompt from the current state string
and the fixed inputs (user query and menu text), send it through the
completion client, and the output becomes the next state. -/
def chainStep {ε : Type} (client : Provider ε) (user_query menu_items : String)
    (state : String) : Stage → Except (PyExn ε) String
  | .reasoning => generate_response client (reasoning_prompt user_query menu_items)
  | .extraction => generate_response client (extraction_prompt state)
  | .refinement => generate_response client (refinement_prompt state)
  | .verification => generate_response client (verification_prompt user_query state menu_items)

/-- Modelled from the spec: the whole state machine — the four stages are
traversed in order with no branching, no retry and no early exit, each
stage's output feeding the next stage's state; the terminal state is the
verification output. -/
def chainRun {ε : Type} (client : Provider ε) (user_query menu_items : String) :
    Except (PyExn ε) String :=
  [Stage.reasoning, Stage.extraction, Stage.refinement, Stage.verification].foldlM
    (fun state stage => chainStep client user_query menu_items state stage) user_query

end FoodChat

namespace Rag

/-- Flattening the fuel-driven batching recovers the input list, for any
positive batch size and sufficient fuel. -/
theorem chunksGo_flatten {α : Type} (bs : Nat) (hbs : 0 < bs) :
    ∀ (fuel : Nat) (l : List α), l.length ≤ fuel → (chunksGo bs fuel l).flatten = l := by
  intro fuel
  induction fuel with
  | zero =>
    intro l hl
    have hnil : l = [] := List.eq_nil_of_length_eq_zero (Nat.le_zero.mp hl)
    subst hnil
    rfl
  | succ n ih =>
    intro l hl
    cases l with
    | nil => rfl
    | cons x xs =>
      simp only [chunksGo, List.flatten_cons]
      rw [ih ((x :: xs).drop bs)]
      · exact List.take_append_drop bs (x :: xs)
      · simp only [List.length_drop, List.length_cons] at *
        omega

/-- Every chunk produced by the fuel-driven batching has at most `bs`
elements. -/
theorem chunksGo_length_le {α : Type} (bs : Nat) :
    ∀ (fuel : Nat) (l : List α) (b : List α), b ∈ chunksGo bs fuel l → b.length ≤ bs := by
  intro fuel
  induction fuel with
  | zero =>
    intro l b hb
    cases l <;> simp [chunksGo] at hb
  | succ n ih =>
    intro l b hb
    cases l with
    | nil => simp [chunksGo] at hb
    | cons x xs =>
      simp only [chunksGo, List.mem_cons] at hb
      rcases hb with hb | hb
      · subst hb
        simp [List.length_take]
      · exact ih _ _ hb

/-- Flattening the batches recovers the input list. -/
theorem chunks_flatten {α : Type} (bs : Nat) (hbs : 0 < bs) (l : List α) :
    (chunks bs l).flatten = l :=
  chunksGo_flatten bs hbs l.length l le_rfl

/-- Every batch has at most `bs` elements. -/
theorem chunks_length_le {α : Type} (bs : Nat) (l : List α) (b : List α)
    (hb : b ∈ chunks bs l) : b.length ≤ bs :=
  chunksGo_length_le bs l.length l b hb

/-- The length of a filtered list is the input length minus the number of
elements failing the predicate. -/
theorem length_filter_eq_sub {α : Type} (p : α → Bool) (l : List α) :
    (l.filter p).length = l.length - l.countP (fun a => !p a) := by
  induction l with
  | nil => rfl
  | cons a l ih =>
    have hle := List.countP_le_length (p := fun a => !p a) (l := l)
    cases h : p a <;> simp [List.filter_cons, List.countP_cons, h, ih] <;> omega

end Rag

/-- C2: for the dataset loader, a row is retained iff both its title and
its description cells are non-empty (present, since an empty cell of the
file loads as a missing value), and the output row count equals the input
row count minus the number of dropped rows. -/
theorem c2_loader_retention (rows : List Rag.CsvRow) :
    (∀ r : Rag.CsvRow, r ∈ Rag.dropna rows ↔
        r ∈ rows ∧ r.Title ≠ none ∧ r.Description ≠ none)
    ∧ (Rag.dropna rows).length =
        rows.length - rows.countP (fun r => !(Rag.hasTitleAndDescription r)) := by
  constructor
  · intro r
    simp [Rag.dropna, List.mem_filter, Rag.hasTitleAndDescription,
      Option.isSome_iff_ne_none, and_assoc]
  · exact Rag.length_filter_eq_sub Rag.hasTitleAndDescription rows

/-- Witness for C2 at a concrete row list: a row with a missing
description is dropped, a complete row is retained, and the count comes
out right. -/
theorem c2_loader_retention_witness :
    (Rag.CsvRow.mk (some "t") (some "d") none none none ∈
      Rag.dropna [Rag.CsvRow.mk (some "t") (some "d") none none none,
        Rag.CsvRow.mk (some "u") none none none none])
    ∧ (Rag.dropna [Rag.CsvRow.mk (some "t") (some "d") none none none,
        Rag.CsvRow.mk (some "u") none none none none]).length =
        2 - 1 := by
  constructor
  · exact ((c2_loader_retention _).1 _).mpr ⟨by decide, by decide, by decide⟩
  · have h := (c2_loader_retention
      [Rag.CsvRow.mk (some "t") (some "d") none none none,
        Rag.CsvRow.mk (some "u") none none none none]).2
    simpa using h

/-- C5: the indexing loop splits the loaded records into consecutive
batches of at most 50 records whose concatenation equals the input
sequence, and the per-batch title and id lists are in one-to-one
positional correspondence with the batch, so every record is embedded and
upserted exactly once, including in a final partial batch. -/
theorem c5_batch_boundaries (papers : List Rag.Paper) :
    (Rag.chunks Rag.batch_size papers).flatten = papers
    ∧ (∀ b ∈ Rag.chunks Rag.batch_size papers, b.length ≤ 50)
    ∧ (∀ (r : Nat → Nat) (pos : Nat) (b : List Rag.Paper),
        (Rag.batch_titles b).length = b.length
        ∧ (Rag.batch_ids r pos b).1.length = b.length) := by
  refine ⟨Rag.chunks_flatten _ (by norm_num [Rag.batch_size]) _, ?_, ?_⟩
  · intro b hb
    exact Rag.chunks_length_le _ _ _ hb
  · intro r pos b
    constructor
    · simp [Rag.batch_titles]
    · induction b generalizing pos with
      | nil => rfl
      | cons p ps ih => simp [Rag.batch_ids, ih]

/-- Witness for C5 at a concrete record list: a three-record input forms a
single batch of three, its flattening is the input, and the batch's id
and title lists have length three. -/
theorem c5_batch_boundaries_witness :
    (Rag.chunks Rag.batch_size
      [Rag.Paper.mk "a" "d" none none none, Rag.Paper.mk "b" "d" none none none,
        Rag.Paper.mk "c" "d" none none none]).flatten =
      [Rag.Paper.mk "a" "d" none none none, Rag.Paper.mk "b" "d" none none none,
        Rag.Paper.mk "c" "d" none none none]
    ∧ [Rag.Paper.mk "a" "d" none none none, Rag.Paper.mk "b" "d" none none none,
        Rag.Paper.mk "c" "d" none none none].length ≤ 50
    ∧ (Rag.batch_ids (fun _ => 1) 0
        [Rag.Paper.mk "a" "d" none none none, Rag.Paper.mk "b" "d" none none none,
          Rag.Paper.mk "c" "d" none none none]).1.length = 3 := by
  refine ⟨(c5_batch_boundaries
      [Rag.Paper.mk "a" "d" none none none, Rag.Paper.mk "b" "d" none none none,
        Rag.Paper.mk "c" "d" none none none]).1, ?_, ?_⟩
  · exact (c5_batch_boundaries
      [Rag.Paper.mk "a" "d" none none none, Rag.Paper.mk "b" "d" none none none,
        Rag.Paper.mk "c" "d" none none none]).2.1
      [Rag.Paper.mk "a" "d" none none none, Rag.Paper.mk "b" "d" none none none,
        Rag.Paper.mk "c" "d" none none none] (by decide)
  · exact ((c5_batch_boundaries
      [Rag.Paper.mk "a" "d" none none none, Rag.Paper.mk "b" "d" none none none,
        Rag.Paper.mk "c" "d" none none none]).2.2 (fun _ => 1) 0
      [Rag.Paper.mk "a" "d" none none none, Rag.Paper.mk "b" "d" none none none,
        Rag.Paper.mk "c" "d" none none none]).2

/-- C8: the title-suggestion prompt composer is a pure deterministic
function of the original title and the ordered retrieved titles — equal
inputs give the identical prompt string — and the prompt is exactly the
fixed template with the original title and the newline-joined retrieved
titles substituted into it. -/
theorem c8_prompt_composer_pure :
    (∀ (t₁ : String) (rs₁ : List String) (t₂ : String) (rs₂ : List String),
      t₁ = t₂ → rs₁ = rs₂ →
        Rag.composeTitlePrompt t₁ rs₁ = Rag.composeTitlePrompt t₂ rs₂)
    ∧ (∀ (t : String) (rs : List String),
        Rag.composeTitlePrompt t rs =
          "\nYour main task is to generate 5 SUGGESTED_TITLES based for the PAPER_TITLE\n\nYou should mimic a similar style and length as SHORT_TITLES but PLEASE DO NOT include titles from SHORT_TITLES in the SUGGESTED_TITLES, only generate appropriate and factual versions of the PAPER_TILE.\n\nPAPER_TITLE: "
            ++ t ++ "\n\nSHORT_TITLES: " ++ String.intercalate "\n" rs
            ++ "\n\nSUGGESTED_TITLES:\n") := by
  constructor
  · intro t₁ rs₁ t₂ rs₂ ht hrs
    rw [ht, hrs]
  · intro t rs
    rfl

/-- Witness for C8 at concrete inputs: two invocations with the same title
and title list give the same prompt. -/
theorem c8_prompt_composer_pure_witness :
    Rag.composeTitlePrompt "S3Eval" ["Llemma", "Self-RAG"] =
      Rag.composeTitlePrompt "S3Eval" ["Llemma", "Self-RAG"] :=
  c8_prompt_composer_pure.1 "S3Eval" ["Llemma", "Self-RAG"] "S3Eval" ["Llemma", "Self-RAG"]
    rfl rfl

namespace Rag

/-- Looking up an id right after upserting it returns the document just
upserted. -/
theorem lookupDoc_upsertOne_self {E : Type} (s : Store E) (id : String) (d : StoredDoc E) :
    lookupDoc (upsertOne s id d) id = some d := by
  induction s with
  | nil => simp [upsertOne, lookupDoc, List.find?]
  | cons kv rest ih =>
    obtain ⟨k, v⟩ := kv
    by_cases h : k == id
    · simp [upsertOne, h, lookupDoc, List.find?]
    · simp only [upsertOne, h, if_false, Bool.false_eq_true]
      simpa [lookupDoc, List.find?, h] using ih

/-- A key of the store after an upsert is either an old key or the
upserted id. -/
theorem mem_keys_upsertOne {E : Type} (s : Store E) (id a : String) (d : StoredDoc E)
    (ha : a ∈ (upsertOne s id d).map Prod.fst) : a ∈ s.map Prod.fst ∨ a = id := by
  induction s with
  | nil => simpa [upsertOne] using ha
  | cons kv rest ih =>
    obtain ⟨k, v⟩ := kv
    by_cases h : k == id
    · simp only [upsertOne, h, if_true] at ha
      simp only [List.map_cons, List.mem_cons] at ha ⊢
      tauto
    · simp only [upsertOne, h, Bool.false_eq_true, if_false] at ha
      simp only [List.map_cons, List.mem_cons] at ha ⊢
      rcases ha with ha | ha
      · tauto
      · rcases ih ha with h' | h' <;> tauto

/-- The upserted id is a key of the store after the upsert. -/
theorem mem_keys_upsertOne_self {E : Type} (s : Store E) (id : String) (d : StoredDoc E) :
    id ∈ (upsertOne s id d).map Prod.fst := by
  induction s with
  | nil => simp [upsertOne]
  | cons kv rest ih =>
    obtain ⟨k, v⟩ := kv
    by_cases h : k == id
    · simp [upsertOne, h]
    · simp only [upsertOne, h, Bool.false_eq_true, if_false, List.map_cons, List.mem_cons]
      exact Or.inr ih

/-- An upsert preserves distinctness of the store's ids. -/
theorem keysNodup_upsertOne {E : Type} (s : Store E) (id : String) (d : StoredDoc E)
    (hs : keysNodup s) : keysNodup (upsertOne s id d) := by
  induction s with
  | nil => simp [upsertOne, keysNodup]
  | cons kv rest ih =>
    obtain ⟨k, v⟩ := kv
    simp only [keysNodup, List.map_cons, List.nodup_cons] at hs
    by_cases h : k == id
    · have hk : k = id := by simpa using h
      subst hk
      simpa [upsertOne, keysNodup, List.nodup_cons] using hs
    · have hrec := ih hs.2
      simp only [upsertOne, h, Bool.false_eq_true, if_false, keysNodup, List.map_cons,
        List.nodup_cons]
      refine ⟨?_, hrec⟩
      intro hmem
      rcases mem_keys_upsertOne rest id k d hmem with h' | h'
      · exact hs.1 h'
      · exact absurd h' (by simpa using h)

/-- The number of entries at an id equals the multiplicity of that id in
the store's key list. -/
theorem countId_eq_count {E : Type} (s : Store E) (id : String) :
    countId s id = (s.map Prod.fst).count id := by
  simp only [countId, List.count, List.countP_map]
  rfl

/-- A store with distinct ids holds at most one entry per id. -/
theorem countId_le_one {E : Type} (s : Store E) (id : String) (hs : keysNodup s) :
    countId s id ≤ 1 := by
  rw [countId_eq_count]
  exact List.nodup_iff_count_le_one.mp hs id

/-- After an upsert into a store with distinct ids, the store holds
exactly one entry at the upserted id. -/
theorem countId_upsertOne {E : Type} (s : Store E) (id : String) (d : StoredDoc E)
    (hs : keysNodup s) : countId (upsertOne s id d) id = 1 := by
  refine le_antisymm (countId_le_one _ _ (keysNodup_upsertOne s id d hs)) ?_
  rw [countId_eq_count]
  exact List.count_pos_iff.mpr (mem_keys_upsertOne_self s id d)

end Rag

/-- C4: upsert into the vector store is idempotent on an id — re-upserting
the same id with new content overwrites the prior content, and the store
afterwards holds exactly one entry for that id, containing exactly the
most recently upserted title text, metadata and embedding. -/
theorem c4_upsert_idempotent :
    ∀ (E : Type) (s : Rag.Store E) (id : String) (d₁ d₂ : Rag.StoredDoc E),
      Rag.keysNodup s →
        Rag.lookupDoc (Rag.upsertOne (Rag.upsertOne s id d₁) id d₂) id = some d₂
        ∧ Rag.countId (Rag.upsertOne (Rag.upsertOne s id d₁) id d₂) id = 1
        ∧ Rag.keysNodup (Rag.upsertOne (Rag.upsertOne s id d₁) id d₂) := by
  intro E s id d₁ d₂ hs
  have h₁ : Rag.keysNodup (Rag.upsertOne s id d₁) := Rag.keysNodup_upsertOne s id d₁ hs
  exact ⟨Rag.lookupDoc_upsertOne_self _ id d₂, Rag.countId_upsertOne _ id d₂ h₁,
    Rag.keysNodup_upsertOne _ id d₂ h₁⟩

/-- Witness for C4 at a concrete store: upserting id "a" twice over a
one-entry store leaves exactly one entry at "a" holding the latest
document. -/
theorem c4_upsert_idempotent_witness :
    Rag.lookupDoc
        (Rag.upsertOne
          (Rag.upsertOne [("a", Rag.StoredDoc.mk "t1" (Rag.Metadata.mk none none) (0 : Nat))]
            "a" (Rag.StoredDoc.mk "t2" (Rag.Metadata.mk none none) 1))
          "a" (Rag.StoredDoc.mk "t3" (Rag.Metadata.mk none none) 2)) "a" =
      some (Rag.StoredDoc.mk "t3" (Rag.Metadata.mk none none) 2)
    ∧ Rag.countId
        (Rag.upsertOne
          (Rag.upsertOne [("a", Rag.StoredDoc.mk "t1" (Rag.Metadata.mk none none) (0 : Nat))]
            "a" (Rag.StoredDoc.mk "t2" (Rag.Metadata.mk none none) 1))
          "a" (Rag.StoredDoc.mk "t3" (Rag.Metadata.mk none none) 2)) "a" = 1 := by
  have h := c4_upsert_idempotent Nat
    [("a", Rag.StoredDoc.mk "t1" (Rag.Metadata.mk none none) (0 : Nat))] "a"
    (Rag.StoredDoc.mk "t2" (Rag.Metadata.mk none none) 1)
    (Rag.StoredDoc.mk "t3" (Rag.Metadata.mk none none) 2)
    (by unfold Rag.keysNodup; decide)
  exact ⟨h.1, h.2.1⟩

namespace Rag

/-- The slice of the random stream used for one title: the `n` draws
starting at position `pos`. -/
def offsetsFor (r : Nat → Nat) : Nat → Nat → List Nat
  | _, 0 => []
  | pos, n + 1 => r pos :: offsetsFor r (pos + 1) n

/-- A stream slice of length `n` has `n` offsets. -/
theorem offsetsFor_length (r : Nat → Nat) :
    ∀ (n pos : Nat), (offsetsFor r pos n).length = n := by
  intro n
  induction n with
  | zero => intro pos; rfl
  | succ m ih => intro pos; simp [offsetsFor, ih]

/-- Every offset of a slice of a valid stream is between 1 and 10000. -/
theorem offsetsFor_mem (r : Nat → Nat) (hr : validOffsets r) :
    ∀ (n pos : Nat) (o : Nat), o ∈ offsetsFor r pos n → 1 ≤ o ∧ o ≤ 10000 := by
  intro n
  induction n with
  | zero => intro pos o ho; simp [offsetsFor] at ho
  | succ m ih =>
    intro pos o ho
    simp only [offsetsFor, List.mem_cons] at ho
    rcases ho with ho | ho
    · subst ho; exact hr pos
    · exact ih (pos + 1) o ho

/-- The randomized character sum is the sum, over the characters zipped
with the corresponding stream slice, of character code plus offset. -/
theorem randTitleSum_eq (r : Nat → Nat) :
    ∀ (cs : List Char) (pos : Nat),
      randTitleSum r pos cs =
        (List.zipWith (fun c o => c.toNat + o) cs (offsetsFor r pos cs.length)).sum := by
  intro cs
  induction cs with
  | nil => intro pos; rfl
  | cons c cs ih =>
    intro pos
    simp [randTitleSum, offsetsFor, List.length_cons, List.zipWith, List.sum_cons, ih]

/-- Positional description of the batch id list: the i-th id is the
derived id of the i-th record's title at some stream position. -/
theorem batch_ids_get (r : Nat → Nat) :
    ∀ (batch : List Paper) (pos i : Nat) (p : Paper), batch[i]? = some p →
      ∃ q, (batch_ids r pos batch).1[i]? = some (deriveId r q p.Title) := by
  intro batch
  induction batch with
  | nil => intro pos i p hp; simp at hp
  | cons hd tl ih =>
    intro pos i p hp
    cases i with
    | zero =>
      simp only [List.getElem?_cons_zero, Option.some.injEq] at hp
      subst hp
      exact ⟨pos, by simp [batch_ids]⟩
    | succ n =>
      simp only [List.getElem?_cons_succ] at hp
      obtain ⟨q, hq⟩ := ih (pos + hd.Title.length) n p hp
      exact ⟨q, by simpa [batch_ids] using hq⟩

end Rag

/-- C3: every id derived in a batch is the decimal string of the sum,
over the characters of the record's title, of the character code plus a
per-character random offset between 1 and 10000; and the derivation is
non-deterministic — two valid random streams can give different ids for
the same title. -/
theorem c3_id_derivation :
    (∀ (r : Nat → Nat), Rag.validOffsets r →
      ∀ (batch : List Rag.Paper) (pos i : Nat) (p : Rag.Paper), batch[i]? = some p →
        ∃ offs : List Nat,
          offs.length = p.Title.data.length
          ∧ (∀ o ∈ offs, 1 ≤ o ∧ o ≤ 10000)
          ∧ (Rag.batch_ids r pos batch).1[i]? =
              some (toString (List.zipWith (fun c o => c.toNat + o) p.Title.data offs).sum))
    ∧ ∃ r₁ r₂ : Nat → Nat, Rag.validOffsets r₁ ∧ Rag.validOffsets r₂ ∧
        Rag.deriveId r₁ 0 "A" ≠ Rag.deriveId r₂ 0 "A" := by
  constructor
  · intro r hr batch pos i p hp
    obtain ⟨q, hq⟩ := Rag.batch_ids_get r batch pos i p hp
    refine ⟨Rag.offsetsFor r q p.Title.data.length, Rag.offsetsFor_length r _ q,
      fun o ho => Rag.offsetsFor_mem r hr _ q o ho, ?_⟩
    rw [hq, Rag.deriveId, Rag.randTitleSum_eq]
  · refine ⟨fun _ => 1, fun _ => 2, by intro i; simp, by intro i; simp, ?_⟩
    decide

/-- Witness for C3 at a concrete batch: the single record titled "A"
under the constant stream 5 receives an id given by the offset-sum
formula with valid offsets. -/
theorem c3_id_derivation_witness :
    ∃ offs : List Nat,
      offs.length = (Rag.Paper.mk "A" "d" none none none).Title.data.length
      ∧ (∀ o ∈ offs, 1 ≤ o ∧ o ≤ 10000)
      ∧ (Rag.batch_ids (fun _ => 5) 0 [Rag.Paper.mk "A" "d" none none none]).1[0]? =
          some (toString (List.zipWith (fun c o => c.toNat + o)
            (Rag.Paper.mk "A" "d" none none none).Title.data offs).sum) :=
  c3_id_derivation.1 (fun _ => 5) (by intro i; simp)
    [Rag.Paper.mk "A" "d" none none none] 0 0 (Rag.Paper.mk "A" "d" none none none)
    (by decide)

namespace Rag

/-- The batched upsert preserves distinctness of the store's ids. -/
theorem keysNodup_upsert {E : Type} :
    ∀ (ids : List String) (ms : List Metadata) (docs : List String) (es : List E)
      (s : Store E), keysNodup s → keysNodup (upsert s ids ms docs es) := by
  intro ids
  induction ids with
  | nil => intro ms docs es s hs; simpa [upsert] using hs
  | cons id ids ih =>
    intro ms docs es s hs
    cases ms with
    | nil => simpa [upsert] using hs
    | cons m ms =>
      cases docs with
      | nil => simpa [upsert] using hs
      | cons doc docs =>
        cases es with
        | nil => simpa [upsert] using hs
        | cons e es =>
          simpa [upsert] using ih ms docs es _ (keysNodup_upsertOne s id _ hs)

/-- One batch of the indexing loop preserves distinctness of the store's
ids. -/
theorem keysNodup_indexBatch {E : Type} (emb : String → E) (r : Nat → Nat)
    (s : Store E) (pos : Nat) (batch : List Paper) (hs : keysNodup s) :
    keysNodup (indexBatch emb r s pos batch).1 :=
  keysNodup_upsert _ _ _ _ s hs

/-- The whole indexing run preserves distinctness of the store's ids. -/
theorem keysNodup_runIndexing {E : Type} (emb : String → E) (r : Nat → Nat)
    (papers : List Paper) (s : Store E) (hs : keysNodup s) :
    keysNodup (runIndexing emb r papers s) := by
  unfold runIndexing
  have h : ∀ (L : List (List Paper)) (acc : Store E × Nat), keysNodup acc.1 →
      keysNodup ((L.foldl (fun acc b => indexBatch emb r acc.1 acc.2 b) acc)).1 := by
    intro L
    induction L with
    | nil => intro acc hacc; simpa using hacc
    | cons b L ih =>
      intro acc hacc
      exact ih _ (keysNodup_indexBatch emb r acc.1 acc.2 b hacc)
  exact h _ (s, 0) hs

end Rag

/-- C10: a batch record whose title is the empty string is indexed with
document text "No Title" but derived id "0" (the sum over zero
characters), so all empty-titled records of a run share the id "0"; a
later upsert at an id silently overwrites the earlier entry, and a run
starting from a store with distinct ids leaves at most one entry with id
"0" in the store. -/
theorem c10_empty_title_collision :
    ∀ (E : Type) (emb : String → E) (r : Nat → Nat) (pos i : Nat)
      (batch papers : List Rag.Paper) (p : Rag.Paper) (s : Rag.Store E)
      (d : Rag.StoredDoc E),
      batch[i]? = some p → p.Title = "" →
        (Rag.batch_titles batch)[i]? = some "No Title"
        ∧ (Rag.batch_ids r pos batch).1[i]? = some "0"
        ∧ Rag.lookupDoc (Rag.upsertOne s "0" d) "0" = some d
        ∧ (Rag.keysNodup s → Rag.countId (Rag.runIndexing emb r papers s) "0" ≤ 1) := by
  intro E emb r pos i batch papers p s d hp ht
  refine ⟨?_, ?_, Rag.lookupDoc_upsertOne_self s "0" d,
    fun hs => Rag.countId_le_one _ _ (Rag.keysNodup_runIndexing emb r papers s hs)⟩
  · simp [Rag.batch_titles, List.getElem?_map, hp, ht]
  · obtain ⟨q, hq⟩ := Rag.batch_ids_get r batch pos i p hp
    rw [hq, ht]
    have h0 : Rag.randTitleSum r q "".data = 0 := rfl
    show some (toString (Rag.randTitleSum r q "".data)) = some "0"
    rw [h0]
    rfl

/-- Witness for C10 at a concrete run: one empty-titled record is indexed
as "No Title" under id "0", an upsert at "0" overwrites, and the store
after the run holds at most one entry at "0". -/
theorem c10_empty_title_collision_witness :
    (Rag.batch_titles [Rag.Paper.mk "" "d" none none none])[0]? = some "No Title"
    ∧ (Rag.batch_ids (fun _ => 7) 0 [Rag.Paper.mk "" "d" none none none]).1[0]? = some "0"
    ∧ Rag.lookupDoc
        (Rag.upsertOne ([] : Rag.Store Nat) "0"
          (Rag.StoredDoc.mk "No Title" (Rag.Metadata.mk none none) 0)) "0" =
        some (Rag.StoredDoc.mk "No Title" (Rag.Metadata.mk none none) 0)
    ∧ Rag.countId
        (Rag.runIndexing (fun _ => (0 : Nat)) (fun _ => 7)
          [Rag.Paper.mk "" "d" none none none] []) "0" ≤ 1 := by
  have h := c10_empty_title_collision Nat (fun _ => (0 : Nat)) (fun _ => 7) 0 0
    [Rag.Paper.mk "" "d" none none none] [Rag.Paper.mk "" "d" none none none]
    (Rag.Paper.mk "" "d" none none none) ([] : Rag.Store Nat)
    (Rag.StoredDoc.mk "No Title" (Rag.Metadata.mk none none) 0) rfl rfl
  exact ⟨h.1, h.2.1, h.2.2.1, h.2.2.2 (by unfold Rag.keysNodup; decide)⟩

/-- C6: the similarity retriever returns at most `n_results` documents,
ordered by non-increasing similarity to the query, and returns the empty
sequence when the store is empty. -/
theorem c6_retriever_topk :
    ∀ (E : Type) (sim : String → String × Rag.StoredDoc E → Int) (s : Rag.Store E)
      (query_text : String) (k : Nat),
      (Rag.query sim s query_text k).length ≤ k
      ∧ List.Sorted (fun a b => sim query_text b ≤ sim query_text a)
          (Rag.query sim s query_text k)
      ∧ Rag.query sim ([] : Rag.Store E) query_text k = [] := by
  intro E sim s qt k
  refine ⟨?_, ?_, by simp [Rag.query, List.insertionSort]⟩
  · simp only [Rag.query, List.length_take]
    exact Nat.min_le_left _ _
  · haveI ht : IsTotal (String × Rag.StoredDoc E) (fun a b => sim qt b ≤ sim qt a) :=
      ⟨fun a b => le_total (sim qt b) (sim qt a)⟩
    haveI htr : IsTrans (String × Rag.StoredDoc E) (fun a b => sim qt b ≤ sim qt a) :=
      ⟨fun a b c hab hbc => le_trans hbc hab⟩
    exact List.Pairwise.sublist (List.take_sublist k _) (List.sorted_insertionSort _ _)

/-- C7: the completion client sends a single-turn message list whose sole
message is a user message holding exactly the prompt, under the fixed
model identifier of its notebook, so its result depends on the provider
only through that one request; on a successful response it returns the
text content of the first choice. -/
theorem c7_completion_client :
    ∀ (ε : Type) (client : Provider ε) (prompt : String),
      (∀ client' : Provider ε,
        client' (ChatRequest.mk "gpt-4o-mini" [ChatMessage.mk "user" prompt]) =
          client (ChatRequest.mk "gpt-4o-mini" [ChatMessage.mk "user" prompt]) →
        Rag.generate_response client' prompt = Rag.generate_response client prompt)
      ∧ (∀ (resp : ChatResponse) (c : Choice) (cs : List Choice),
          client (ChatRequest.mk "gpt-4o-mini" [ChatMessage.mk "user" prompt]) = .ok resp →
          resp.choices = c :: cs →
          Rag.generate_response client prompt = .ok c.message.content)
      ∧ (∀ client' : Provider ε,
        client' (ChatRequest.mk "gpt-4o" [ChatMessage.mk "user" prompt]) =
          client (ChatRequest.mk "gpt-4o" [ChatMessage.mk "user" prompt]) →
        FoodChat.generate_response client' prompt = FoodChat.generate_response client prompt)
      ∧ (∀ (resp : ChatResponse) (c : Choice) (cs : List Choice),
          client (ChatRequest.mk "gpt-4o" [ChatMessage.mk "user" prompt]) = .ok resp →
          resp.choices = c :: cs →
          FoodChat.generate_response client prompt = .ok c.message.content) := by
  intro ε client prompt
  refine ⟨?_, ?_, ?_, ?_⟩
  · intro client' h
    simp [Rag.generate_response, h]
  · intro resp c cs h hc
    simp [Rag.generate_response, h, hc]
  · intro client' h
    simp [FoodChat.generate_response, h]
  · intro resp c cs h hc
    simp [FoodChat.generate_response, h, hc]

/-- Witness for C7 at a concrete provider: a provider answering with one
choice of content "hi" makes both clients return "hi". -/
theorem c7_completion_client_witness :
    Rag.generate_response
        ((fun _ => Except.ok (ChatResponse.mk [Choice.mk (ChatMessage.mk "assistant" "hi")]))
          : Provider String) "ping" = Except.ok "hi"
    ∧ FoodChat.generate_response
        ((fun _ => Except.ok (ChatResponse.mk [Choice.mk (ChatMessage.mk "assistant" "hi")]))
          : Provider String) "ping" = Except.ok "hi" := by
  constructor
  · exact (c7_completion_client String _ "ping").2.1
      (ChatResponse.mk [Choice.mk (ChatMessage.mk "assistant" "hi")])
      (Choice.mk (ChatMessage.mk "assistant" "hi")) [] rfl rfl
  · exact (c7_completion_client String _ "ping").2.2.2
      (ChatResponse.mk [Choice.mk (ChatMessage.mk "assistant" "hi")])
      (Choice.mk (ChatMessage.mk "assistant" "hi")) [] rfl rfl

/-- Binding a successful `Except` value applies the continuation. -/
theorem exceptBind_ok {ε α β : Type} (a : α) (f : α → Except ε β) :
    (Except.ok a >>= f) = f a := rfl

/-- Binding a failed `Except` value propagates the error. -/
theorem exceptBind_error {ε α β : Type} (e : ε) (f : α → Except ε β) :
    ((Except.error e : Except ε α) >>= f) = Except.error e := rfl

/-- Mapping over a successful `Except` value applies the function. -/
theorem exceptMap_ok {ε α β : Type} (a : α) (f : α → β) :
    (f <$> (Except.ok a : Except ε α)) = Except.ok (f a) := rfl

/-- Mapping over a failed `Except` value propagates the error. -/
theorem exceptMap_error {ε α β : Type} (e : ε) (f : α → β) :
    (f <$> (Except.error e : Except ε α)) = (Except.error e : Except ε β) := rfl

/-- C9: a provider failure surfaces unhandled — the completion client of
either notebook re-raises the provider's error with its payload unchanged,
and in the chat chain a failure of any stage makes the whole chain return
that same error with no retry and no translation. -/
theorem c9_error_propagation :
    ∀ (ε : Type) (client : Provider ε),
      (∀ (prompt : String) (e : ε),
        client (ChatRequest.mk "gpt-4o-mini" [ChatMessage.mk "user" prompt]) = .error e →
        Rag.generate_response client prompt = .error (.api e))
      ∧ (∀ (prompt : String) (e : ε),
        client (ChatRequest.mk "gpt-4o" [ChatMessage.mk "user" prompt]) = .error e →
        FoodChat.generate_response client prompt = .error (.api e))
      ∧ (∀ (q m : String) (err : PyExn ε),
        FoodChat.reasoning_step client q m = .error err →
        FoodChat.generate_food_chatbot client q m = .error err)
      ∧ (∀ (q m r : String) (err : PyExn ε),
        FoodChat.reasoning_step client q m = .ok r →
        FoodChat.extraction_step client r = .error err →
        FoodChat.generate_food_chatbot client q m = .error err)
      ∧ (∀ (q m r x : String) (err : PyExn ε),
        FoodChat.reasoning_step client q m = .ok r →
        FoodChat.extraction_step client r = .ok x →
        FoodChat.refinement_step client x = .error err →
        FoodChat.generate_food_chatbot client q m = .error err)
      ∧ (∀ (q m r x f : String) (err : PyExn ε),
        FoodChat.reasoning_step client q m = .ok r →
        FoodChat.extraction_step client r = .ok x →
        FoodChat.refinement_step client x = .ok f →
        FoodChat.verification_step client q f m = .error err →
        FoodChat.generate_food_chatbot client q m = .error err) := by
  intro ε client
  refine ⟨?_, ?_, ?_, ?_, ?_, ?_⟩
  · intro prompt e h
    simp [Rag.generate_response, h]
  · intro prompt e h
    simp [FoodChat.generate_response, h]
  · intro q m err h
    simp [FoodChat.generate_food_chatbot, h, exceptBind_ok, exceptBind_error,
      exceptMap_ok, exceptMap_error]
  · intro q m r err h1 h2
    simp [FoodChat.generate_food_chatbot, h1, h2, exceptBind_ok, exceptBind_error,
      exceptMap_ok, exceptMap_error]
  · intro q m r x err h1 h2 h3
    simp [FoodChat.generate_food_chatbot, h1, h2, h3, exceptBind_ok, exceptBind_error,
      exceptMap_ok, exceptMap_error]
  · intro q m r x f err h1 h2 h3 h4
    simp [FoodChat.generate_food_chatbot, h1, h2, h3, h4, exceptBind_ok, exceptBind_error,
      exceptMap_ok, exceptMap_error]

/-- Witness for C9 at a concrete always-failing provider: a "rate limit"
provider error surfaces from the RAG client and from the whole chat chain
with the payload unchanged. -/
theorem c9_error_propagation_witness :
    Rag.generate_response ((fun _ => Except.error "rate limit") : Provider String) "hello" =
      Except.error (PyExn.api "rate limit")
    ∧ FoodChat.generate_food_chatbot ((fun _ => Except.error "rate limit") : Provider String)
        "q" "menu" = Except.error (PyExn.api "rate limit") := by
  constructor
  · exact (c9_error_propagation String _).1 "hello" "rate limit" rfl
  · exact (c9_error_propagation String _).2.2.1 "q" "menu" (PyExn.api "rate limit") rfl

/-- C1: the full chat chain equals the spec's linear state machine — the
four stages run in order, each consuming exactly the previous stage's
textual output (the verification stage additionally receiving the original
user query and menu text), the terminal state is the verification output
and the chain returns it (wrapped as the notebook's Markdown display
object); as a pure composition of the stage functions it has no hidden
state. -/
theorem c1_chain_composition :
    ∀ (ε : Type) (client : Provider ε) (user_query menu_items : String),
      FoodChat.generate_food_chatbot client user_query menu_items =
        Except.map FoodChat.Markdown.mk (FoodChat.chainRun client user_query menu_items)
      ∧ Except.map FoodChat.Markdown.data
          (FoodChat.generate_food_chatbot client user_query menu_items) =
        (FoodChat.reasoning_step client user_query menu_items >>= fun reasoning =>
          FoodChat.extraction_step client reasoning >>= fun extraction =>
          FoodChat.refinement_step client extraction >>= fun refinement =>
          FoodChat.verification_step client user_query refinement menu_items) := by
  intro ε client q m
  cases h1 : FoodChat.generate_response client (FoodChat.reasoning_prompt q m) with
  | error e =>
    constructor <;>
      simp [FoodChat.generate_food_chatbot, FoodChat.chainRun, FoodChat.chainStep,
        FoodChat.reasoning_step, FoodChat.extraction_step, FoodChat.refinement_step,
        FoodChat.verification_step, h1, List.foldlM, Except.map,
        exceptBind_ok, exceptBind_error, exceptMap_ok, exceptMap_error]
  | ok r1 =>
    cases h2 : FoodChat.generate_response client (FoodChat.extraction_prompt r1) with
    | error e =>
      constructor <;>
        simp [FoodChat.generate_food_chatbot, FoodChat.chainRun, FoodChat.chainStep,
          FoodChat.reasoning_step, FoodChat.extraction_step, FoodChat.refinement_step,
          FoodChat.verification_step, h1, h2, List.foldlM, Except.map,
          exceptBind_ok, exceptBind_error, exceptMap_ok, exceptMap_error]
    | ok r2 =>
      cases h3 : FoodChat.generate_response client (FoodChat.refinement_prompt r2) with
      | error e =>
        constructor <;>
          simp [FoodChat.generate_food_chatbot, FoodChat.chainRun, FoodChat.chainStep,
            FoodChat.reasoning_step, FoodChat.extraction_step, FoodChat.refinement_step,
            FoodChat.verification_step, h1, h2, h3, List.foldlM, Except.map,
            exceptBind_ok, exceptBind_error, exceptMap_ok, exceptMap_error]
      | ok r3 =>
        cases h4 : FoodChat.generate_response client (FoodChat.verification_prompt q r3 m) with
      | error e =>
          constructor <;>
            simp [FoodChat.generate_food_chatbot, FoodChat.chainRun, FoodChat.chainStep,
              FoodChat.reasoning_step, FoodChat.extraction_step, FoodChat.refinement_step,
              FoodChat.verification_step, h1, h2, h3, h4, List.foldlM, Except.map,
              exceptBind_ok, exceptBind_error, exceptMap_ok, exceptMap_error]
      | ok r4 =>
          constructor <;>
            simp [FoodChat.generate_food_chatbot, FoodChat.chainRun, FoodChat.chainStep,
              FoodChat.reasoning_step, FoodChat.extraction_step, FoodChat.refinement_step,
              FoodChat.verification_step, h1, h2, h3, h4, List.foldlM, Except.map,
              exceptBind_ok, exceptBind_error, exceptMap_ok, exceptMap_error]
